import Mathlib

/-!
Verification of the fastclaw-relay gateway connection and relay protocol
(`scripts/relay.mjs`), shallowly embedded in Lean 4.

JavaScript `Map` objects are modelled as association lists (`List (String × α)`)
with `mapGet` / `mapSet` / `mapDelete` mirroring `get` / `set` / `delete`.
Absent or falsy string fields of loosely-typed payloads are modelled as the
empty string (JavaScript treats `undefined` and `""` the same way in every
truthiness test the relay performs on them); optional fields that are only
read through `??` / `?.` chains are modelled as `Option`.
-/

namespace FastclawRelay

/-- `Map.prototype.get`: the value stored under key `k`, if any. -/
def mapGet {α : Type} (l : List (String × α)) (k : String) : Option α :=
  (l.find? fun e => e.1 == k).map (·.2)

/-- `Map.prototype.set`: replaces the value under an existing key in place,
otherwise appends the new entry (JavaScript `Map` keeps insertion order). -/
def mapSet {α : Type} (l : List (String × α)) (k : String) (v : α) :
    List (String × α) :=
  if l.any (fun e => e.1 == k) then
    l.map fun e => if e.1 == k then (k, v) else e
  else l ++ [(k, v)]

/-- `Map.prototype.delete`: removes the entry under key `k`. -/
def mapDelete {α : Type} (l : List (String × α)) (k : String) :
    List (String × α) :=
  l.filter fun e => !(e.1 == k)

/-- A typed part of structured message content, e.g. `{type: "text", text: s}`.
`text := none` models a part whose `text` field is absent or not a string. -/
structure ContentPart where
  type : String
  text : Option String
deriving DecidableEq, Repr

/-- Message content on the wire: a plain string, an array of typed parts, or
anything else (which every flattening path turns into the empty string). -/
inductive Content where
  | str (s : String)
  | parts (ps : List ContentPart)
  | other
deriving Repr

/-- The content flattening inside the chat-event handler (relay.mjs 371-378 and
384-388): parts with `type === "text"` are kept and their `text` fields joined
with newlines; `Array.prototype.join` renders a missing `text` as the empty
string. -/
def flattenEvent : Content → String
  | .str s => s
  | .parts ps =>
      String.intercalate "\n"
        ((ps.filter fun c => c.type == "text").map fun c => c.text.getD "")
  | .other => ""

/-- The content flattening of `pushChatEvent` (relay.mjs 683-691) and
`syncHistoryForSessions` (relay.mjs 731-739): parts must be text-typed *and*
carry a string `text` to contribute. -/
def flattenStrict : Content → String
  | .str s => s
  | .parts ps =>
      String.intercalate "\n"
        (ps.filterMap fun c => if c.type == "text" then c.text else none)
  | .other => ""

/-- JavaScript `String.prototype.trim`: strips leading and trailing
whitespace. -/
def jsTrim (s : String) : String :=
  String.mk
    (((s.data.dropWhile Char.isWhitespace).reverse.dropWhile
        Char.isWhitespace).reverse)

/-- An entry of `Relay.pendingDeltas` (relay.mjs 379): the latest accumulated
text for one in-flight run. -/
structure DeltaEntry where
  sessionKey : String
  text : String
  timestamp : Nat
deriving DecidableEq, Repr

/-- A streaming chat message (`payload.message` of a `chat` event):
`timestamp := none` models a missing `message.timestamp`. -/
structure ChatStreamMessage where
  content : Content
  timestamp : Option Nat
deriving Repr

/-- The finished assistant message the final branch hands to `pushChatEvent`
(relay.mjs 394). -/
structure FinishedMessage where
  sessionKey : String
  role : String
  content : String
  timestamp : Nat
deriving DecidableEq, Repr

/-- The delta branch of the chat-event handler (relay.mjs 368-379): stores the
latest flattened text per `runId`, but only when that text is non-empty. -/
def onChatDelta (m : List (String × DeltaEntry)) (runId sessionKey : String)
    (msg : ChatStreamMessage) (now : Nat) : List (String × DeltaEntry) :=
  let text := flattenEvent msg.content
  if text = "" then m
  else mapSet m runId ⟨sessionKey, text, msg.timestamp.getD now⟩

/-- The final branch of the chat-event handler (relay.mjs 380-396): flattens the
final payload, reads and then always deletes the accumulator entry, falls back
to the accumulated delta text when the final text is empty, and emits the
finished assistant message only when the resulting text is non-blank. -/
def onChatFinal (m : List (String × DeltaEntry)) (runId sessionKey : String)
    (message : Option ChatStreamMessage) (now : Nat) :
    List (String × DeltaEntry) × Option FinishedMessage :=
  let text := match message with
    | some msg => flattenEvent msg.content
    | none => ""
  let delta := mapGet m runId
  let m' := mapDelete m runId
  let finalText := if text = "" then (delta.map (·.text)).getD "" else text
  if jsTrim finalText = "" then (m', none)
  else (m', some { sessionKey := sessionKey, role := "assistant",
                   content := finalText,
                   timestamp := (delta.map (·.timestamp)).getD now })

/-- The payload of a `chat` event. `runId`/`sessionKey` empty models a missing
or falsy field; `state` is the raw string. -/
structure ChatPayload where
  runId : String
  sessionKey : String
  state : String
  message : Option ChatStreamMessage

/-- The `chat` branch of the relay's frame handler (relay.mjs 363-398):
requires truthy `runId` and `sessionKey`, dispatches on `state`, and returns
the updated accumulator plus the finished message emitted, if any. -/
def onChatEvent (m : List (String × DeltaEntry)) (p : ChatPayload) (now : Nat) :
    List (String × DeltaEntry) × Option FinishedMessage :=
  if p.runId = "" ∨ p.sessionKey = "" then (m, none)
  else if p.state = "delta" then
    match p.message with
    | some msg => (onChatDelta m p.runId p.sessionKey msg now, none)
    | none => (m, none)
  else if p.state = "final" then
    onChatFinal m p.runId p.sessionKey p.message now
  else (m, none)

/-- A gateway message normalized by `extractGatewayMessages`
(relay.mjs 113-124). -/
structure GatewayMsg where
  sessionKey : String
  role : String
  content : String
  timestamp : Nat
deriving DecidableEq, Repr

/-- `Relay.hashGatewayMessage` (relay.mjs 829-833): a sha1 digest over the
joined fields, modelled by the joined pre-image string itself (the digest is
deterministic and, up to hash collisions, injective on it). -/
def hashGatewayMessage (m : GatewayMsg) : String :=
  m.sessionKey ++ "|" ++ m.role ++ "|" ++ m.content ++ "|" ++ toString m.timestamp

/-- `Relay.pruneRecentHashes` (relay.mjs 835-840): drops every recorded hash
whose timestamp is older than the 10-minute retention window. -/
def pruneRecentHashes (l : List (String × Nat)) (now : Nat) :
    List (String × Nat) :=
  l.filter fun e => !decide (e.2 < now - 10 * 60 * 1000)

/-- One iteration of the loop in `Relay.pushGatewayMessages`
(relay.mjs 847-864): a message whose hash is recorded is skipped; otherwise the
RemoteStore push is attempted (`ok` tells whether the mutation succeeds) and
the hash is recorded, at the current time, only when the push succeeded.
State: the hash map plus the list of messages delivered so far. -/
def pushOne (ok : GatewayMsg → Bool) (now : Nat)
    (st : List (String × Nat) × List GatewayMsg) (m : GatewayMsg) :
    List (String × Nat) × List GatewayMsg :=
  let h := hashGatewayMessage m
  if (mapGet st.1 h).isSome then st
  else if ok m then (mapSet st.1 h now, st.2 ++ [m])
  else st

/-- `Relay.pushGatewayMessages` (relay.mjs 842-865): returns unchanged on an
empty batch; otherwise prunes the recorded hashes once and processes the batch
in order. Returns the resulting hash map and the messages delivered to
RemoteStore. -/
def pushGatewayMessages (ok : GatewayMsg → Bool) (now : Nat)
    (hm : List (String × Nat)) (msgs : List GatewayMsg) :
    List (String × Nat) × List GatewayMsg :=
  if msgs = [] then (hm, [])
  else msgs.foldl (pushOne ok now) (pruneRecentHashes hm now, [])

/-- An inbound wire frame as parsed by the `ws.on("message")` callback.
`id`, `type`, `event` empty model missing/falsy fields; payloads are opaque
strings; `errMessage` is the coalesced `error?.message`. -/
structure Frame where
  id : String
  ok : Option Bool
  payload : Option String
  result : Option String
  errMessage : Option String
  type : String
  event : String
deriving DecidableEq, Repr

/-- The outcome delivered to a `request()` caller (or recorded for an inbound
frame that did not correlate): the resolve value `frame.payload ?? frame.result
?? frame`, or one of the three rejection reasons of relay.mjs. -/
inductive Settled where
  | resolvedPayload (s : String)
  | resolvedResult (s : String)
  | resolvedFrame (f : Frame)
  | rejectedRpc (msg : String)
  | rejectedTimeout (method : String)
  | rejectedClosing
deriving DecidableEq, Repr

/-- The value a correlated response resolves with (relay.mjs 220):
`frame.payload ?? frame.result ?? frame`. -/
def resolveOf (f : Frame) : Settled :=
  match f.payload with
  | some s => .resolvedPayload s
  | none =>
    match f.result with
    | some s => .resolvedResult s
    | none => .resolvedFrame f

/-- An entry of `GatewayConnection.pending`: the continuation of one
outstanding `request(method, ...)` call (the resolve/reject pair is tracked
through `ConnState.settled`). -/
structure PendingEntry where
  method : String
deriving DecidableEq, Repr

/-- The observable state of one `GatewayConnection`:
`pending` is the `id → PendingRequest` map, `timers` the active timeout
callbacks `(id, method)`, `settled` the outcomes handed to callers in order,
`events` the frames fanned out to the registered frame handlers, and
`connectSends` counts `sendConnect` invocations triggered by challenges. -/
structure ConnState where
  pending : List (String × PendingEntry)
  timers : List (String × String)
  settled : List (String × Settled)
  events : List Frame
  connectSends : Nat
  connected : Bool
  closed : Bool
deriving DecidableEq, Repr

/-- The `ws.on("message")` callback of `GatewayConnection.open`
(relay.mjs 208-232): a frame whose truthy `id` matches a pending request clears
that request's timer, removes the entry, and settles exactly that caller
(rejecting on `ok === false`, resolving otherwise); a `connect.challenge` frame
triggers `sendConnect`; every other frame is fanned out to the handlers. -/
def handleMessage (st : ConnState) (frame : Frame) : ConnState :=
  if frame.id ≠ "" ∧ (mapGet st.pending frame.id).isSome then
    let st' := { st with
      timers := st.timers.filter fun t => !(t.1 == frame.id),
      pending := mapDelete st.pending frame.id }
    if frame.ok = some false then
      { st' with settled := st'.settled ++
          [(frame.id, .rejectedRpc (frame.errMessage.getD "Gateway RPC error"))] }
    else
      { st' with settled := st'.settled ++ [(frame.id, resolveOf frame)] }
  else if frame.type = "connect.challenge" ∨ frame.event = "connect.challenge" then
    { st with connectSends := st.connectSends + 1 }
  else
    { st with events := st.events ++ [frame] }

/-- `GatewayConnection.request` (relay.mjs 246-263) on an open socket:
registers a pending entry under a fresh id together with its timeout timer and
sends the request frame. -/
def request (st : ConnState) (id method : String) : ConnState :=
  { st with pending := mapSet st.pending id ⟨method⟩,
            timers := st.timers ++ [(id, method)] }

/-- The timeout callback of one pending request (relay.mjs 255-258): it runs
only while its timer is still active; it deletes the pending entry and rejects
the caller with an RPC-timeout error naming the method. -/
def fireTimeout (st : ConnState) (id : String) : ConnState :=
  match st.timers.find? (fun t => t.1 == id) with
  | none => st
  | some t =>
      { st with
        timers := st.timers.filter fun x => !(x.1 == id),
        pending := mapDelete st.pending id,
        settled := st.settled ++ [(id, .rejectedTimeout t.2)] }

/-- `GatewayConnection.close` (relay.mjs 265-292): a second call returns at
once; otherwise every pending request's timer is cleared and its caller is
rejected with the connection-closing error, and the pending map is emptied. -/
def close (st : ConnState) : ConnState :=
  if st.closed then st
  else
    { st with
      closed := true,
      connected := false,
      settled := st.settled ++ st.pending.map fun e => (e.1, Settled.rejectedClosing),
      timers := st.timers.filter fun t => (mapGet st.pending t.1).isNone,
      pending := [] }

/-- The observable state of the `Relay` orchestrator (relay.mjs 309-319):
the running flag, the reconnect counter and the live connection, if any. -/
structure RelayState where
  running : Bool
  reconnectAttempt : Nat
  conn : Option ConnState
deriving DecidableEq, Repr

/-- `Relay.stop` (relay.mjs 877-880): clears the running flag and closes the
active connection, if any. -/
def stop (r : RelayState) : RelayState :=
  { r with running := false, conn := r.conn.map close }

/-- The pre-jitter reconnect backoff (relay.mjs 344):
`Math.min(30000, 1000 * 2 ** Math.min(attempt, 5))`. -/
def backoffOf (attempt : Nat) : Nat :=
  min 30000 (1000 * 2 ^ (min attempt 5))

/-- The jitter added to the backoff (relay.mjs 345):
`Math.floor(Math.random() * 500)` for a random `r ∈ [0, 1)`. -/
def jitterOf (r : ℚ) : ℤ :=
  Int.floor (r * 500)

/-- What the bottom of one `Relay.start` loop iteration does next
(relay.mjs 341-348): exit when `running` was cleared, otherwise increment the
attempt counter and schedule the next attempt after the pre-jitter backoff. -/
inductive LoopNext where
  | exit
  | retryAfter (backoffMs : Nat)
deriving DecidableEq, Repr

/-- The reconnect-loop decision of `Relay.start` (relay.mjs 341-348). -/
def loopNext (running : Bool) (reconnectAttempt : Nat) : LoopNext :=
  if running then LoopNext.retryAfter (backoffOf (reconnectAttempt + 1))
  else LoopNext.exit

/-- The handler fan-out loop (relay.mjs 231):
`for (const handler of this.handlers) handler(frame)`. The handler `Set`
iterates in registration order; an exception thrown by a handler propagates
out of the loop. A handler is modelled by its name and whether it throws on
this frame; the result lists the handlers invoked, in order. -/
def dispatchFrame : List (String × Bool) → List String
  | [] => []
  | (name, throws) :: rest => name :: (if throws then [] else dispatchFrame rest)

/-- JavaScript `String.prototype.slice(0, n)`. -/
def jsSlice (s : String) (n : Nat) : String :=
  String.mk (s.data.take n)

/-- The role coercion of `extractGatewayMessages` (relay.mjs 119): any role
other than assistant, system or user becomes assistant. -/
def coerceRoleAssistantDefault (r : String) : String :=
  if r = "assistant" ∨ r = "system" ∨ r = "user" then r else "assistant"

/-- The role coercion of `pushChatEvent` (relay.mjs 694) and
`syncHistoryForSessions` (relay.mjs 743): user and assistant map to
themselves, every other role becomes system. -/
def coerceRoleSystemDefault (r : String) : String :=
  if r = "user" then "user"
  else if r = "assistant" then "assistant"
  else "system"

/-- A chat message as consumed by `pushChatEvent` and the history sync:
`timestamp := none` models a missing or non-numeric timestamp. -/
structure ChatEventMsg where
  role : String
  content : Content
  timestamp : Option Nat
deriving Repr

/-- A message record pushed to RemoteStore via `messages:pushFromGateway`. -/
structure PushedMessage where
  sessionKey : String
  role : String
  content : String
  timestamp : Nat
deriving DecidableEq, Repr

/-- `Relay.pushChatEvent` (relay.mjs 677-708): requires a truthy session key
and message, flattens the content, drops whitespace-only text, coerces the
role (system default), caps the content at 4000 units and pushes it. Returns
the record pushed to RemoteStore, or none when nothing is pushed. -/
def pushChatEvent (sessionKey : String) (message : Option ChatEventMsg)
    (now : Nat) : Option PushedMessage :=
  if sessionKey = "" then none
  else
    match message with
    | none => none
    | some msg =>
        let text := flattenStrict msg.content
        if jsTrim text = "" then none
        else some { sessionKey := sessionKey,
                    role := coerceRoleSystemDefault msg.role,
                    content := jsSlice text 4000,
                    timestamp := msg.timestamp.getD now }

/-- A message normalized by the history sync, before the session key is
attached at the push site. -/
structure HistoryMessage where
  role : String
  content : String
  timestamp : Nat
deriving DecidableEq, Repr

/-- The per-message normalization of `syncHistoryForSessions`
(relay.mjs 727-749): drops tool and toolResult messages, flattens the content,
drops whitespace-only text, coerces the role (system default) and caps the
content at 4000 units. -/
def normalizeHistoryMessage (msg : ChatEventMsg) (now : Nat) :
    Option HistoryMessage :=
  if msg.role = "toolResult" ∨ msg.role = "tool" then none
  else
    let text := flattenStrict msg.content
    if jsTrim text = "" then none
    else some { role := coerceRoleSystemDefault msg.role,
                content := jsSlice text 4000,
                timestamp := msg.timestamp.getD now }

/-- A raw message as seen by `extractGatewayMessages` (relay.mjs 113-124),
after the field-fallback chains: `sessionKey` empty models a missing key,
`content` is the string content after the `content` / `text` fallback. -/
structure RawGatewayMessage where
  sessionKey : String
  content : Option String
  role : String
  timestamp : Option Nat
deriving DecidableEq, Repr

/-- The per-message normalization of `extractGatewayMessages`
(relay.mjs 113-124): drops messages without a truthy session key or content,
coerces the role (assistant default) and fills the timestamp. The content is
passed through unchanged. -/
def extractGatewayMessage (m : RawGatewayMessage) (now : Nat) :
    Option GatewayMsg :=
  if m.sessionKey = "" then none
  else
    match m.content with
    | none => none
    | some c =>
        if c = "" then none
        else some { sessionKey := m.sessionKey,
                    role := coerceRoleAssistantDefault m.role,
                    content := c,
                    timestamp := m.timestamp.getD now }

/-- The accumulator before C1's witness: run-1 accumulated the delta text
Hello. -/
def c1Map : List (String × DeltaEntry) :=
  [("run-1", ⟨"agent:main:main", "Hello", 42⟩)]

/-- The final chat event of C1's witness: a final frame with no text parts. -/
def c1Payload : ChatPayload :=
  { runId := "run-1", sessionKey := "agent:main:main", state := "final",
    message := some ⟨Content.parts [], none⟩ }

/-- The connection state of C3's witness: requests A then B outstanding. -/
def c3State : ConnState :=
  { pending := [("idA", ⟨"chat.history"⟩), ("idB", ⟨"sessions.list"⟩)],
    timers := [("idA", "chat.history"), ("idB", "sessions.list")],
    settled := [], events := [], connectSends := 0,
    connected := true, closed := false }

/-- B's response frame in C3's witness. -/
def c3FrameB : Frame :=
  { id := "idB", ok := some true, payload := some "sessionsPayload",
    result := none, errMessage := none, type := "", event := "" }

/-- A's (later) response frame in C3's witness. -/
def c3FrameA : Frame :=
  { id := "idA", ok := some true, payload := some "historyPayload",
    result := none, errMessage := none, type := "", event := "" }

/-- The connection state of C4's witness: one outstanding request. -/
def c4State : ConnState :=
  { pending := [("X", ⟨"chat.history"⟩)], timers := [("X", "chat.history")],
    settled := [], events := [], connectSends := 0,
    connected := true, closed := false }

/-- The late response frame of C4's witness. -/
def c4Frame : Frame :=
  { id := "X", ok := some true, payload := some "late", result := none,
    errMessage := none, type := "", event := "" }

/-- The connection of C8's witness: three outstanding requests. -/
def c8Conn : ConnState :=
  { pending := [("q1", ⟨"chat.send"⟩), ("q2", ⟨"health"⟩), ("q3", ⟨"status"⟩)],
    timers := [("q1", "chat.send"), ("q2", "health"), ("q3", "status")],
    settled := [], events := [], connectSends := 0,
    connected := true, closed := false }

/-- The relay of C8's witness, connected and running. -/
def c8Relay : RelayState :=
  { running := true, reconnectAttempt := 3, conn := some c8Conn }

/-- The message of C2's and C10's witnesses. -/
def c2Msg : GatewayMsg :=
  { sessionKey := "agent:main:main", role := "assistant", content := "hi",
    timestamp := 1 }

/-- 4001-unit content, one unit over the cap. -/
def longContent : String := String.mk (List.replicate 4001 'a')

/-- The over-long gateway message of C6's counterexample. -/
def longMsg : GatewayMsg :=
  { sessionKey := "agent:main:main", role := "assistant",
    content := longContent, timestamp := 5 }

/-- The chat message with the tool-oriented role toolResult in C9's witness,
fed to pushChatEvent. -/
def c9ChatTool : ChatEventMsg :=
  { role := "toolResult", content := Content.str "tool result text",
    timestamp := some 2 }

/-- The chat message with an unrecognized role in C9's witness, fed to the
history-sync normalization. -/
def c9Chat : ChatEventMsg :=
  { role := "widget", content := Content.str "hi", timestamp := some 2 }

/-- The raw gateway message with the tool-oriented role tool in C9's
witness, fed to extractGatewayMessages. -/
def c9Raw : RawGatewayMessage :=
  { sessionKey := "s1", content := some "yo", role := "tool",
    timestamp := some 3 }

theorem apply_ite_pair {α β : Type} (c : Prop) [Decidable c] (a : α)
    (x y : β) :
    (if c then (a, x) else (a, y)) = (a, if c then x else y) := by
  split <;> rfl

theorem mapGet_nil {α : Type} (k : String) :
    mapGet ([] : List (String × α)) k = none := rfl

theorem mapGet_cons {α : Type} (e : String × α) (l : List (String × α))
    (k : String) :
    mapGet (e :: l) k = if e.1 = k then some e.2 else mapGet l k := by
  by_cases h : e.1 = k
  · simp [mapGet, List.find?_cons_of_pos, h]
  · have hb : (e.1 == k) = false := by simpa using h
    simp [mapGet, List.find?_cons_of_neg, hb, h]

theorem mapGet_eq_none_iff {α : Type} (l : List (String × α)) (k : String) :
    mapGet l k = none ↔ ∀ e ∈ l, e.1 ≠ k := by
  induction l with
  | nil => simp [mapGet_nil]
  | cons e l ih =>
      rw [mapGet_cons]
      by_cases h : e.1 = k
      · simp [h]
      · simp [h, ih]

theorem mapGet_mapDelete_self {α : Type} (l : List (String × α)) (k : String) :
    mapGet (mapDelete l k) k = none := by
  rw [mapGet_eq_none_iff]
  intro e he
  have h := List.mem_filter.mp he
  simpa using h.2

theorem mapGet_mapDelete_ne {α : Type} (l : List (String × α)) (k k' : String)
    (h : k' ≠ k) :
    mapGet (mapDelete l k) k' = mapGet l k' := by
  induction l with
  | nil => rfl
  | cons e l ih =>
      rw [mapDelete, List.filter_cons]
      by_cases he : e.1 = k
      · have hb : (!(e.1 == k)) = false := by simpa using he
        have hk' : ¬ e.1 = k' := by rw [he]; exact fun hh => h hh.symm
        rw [if_neg (by simp [hb]), mapGet_cons, if_neg hk']
        exact ih
      · have hb : (!(e.1 == k)) = true := by simpa using he
        rw [if_pos (by simp [hb]), mapGet_cons, mapGet_cons]
        by_cases hk' : e.1 = k'
        · simp [hk']
        · simpa [hk'] using ih

theorem mapSet_of_get_none {α : Type} (l : List (String × α)) (k : String)
    (v : α) (h : mapGet l k = none) :
    mapSet l k v = l ++ [(k, v)] := by
  rw [mapGet_eq_none_iff] at h
  rw [mapSet, if_neg]
  intro hany
  rcases List.any_eq_true.mp hany with ⟨e, he, hk⟩
  exact h e he (by simpa using hk)

theorem mapGet_append_of_none {α : Type} (l1 l2 : List (String × α))
    (k : String) (h : mapGet l1 k = none) :
    mapGet (l1 ++ l2) k = mapGet l2 k := by
  induction l1 with
  | nil => rfl
  | cons e l ih =>
      rw [mapGet_cons] at h
      by_cases he : e.1 = k
      · rw [if_pos he] at h; exact absurd h (by simp)
      · rw [if_neg he] at h
        rw [List.cons_append, mapGet_cons, if_neg he]
        exact ih h

theorem mapGet_single_self {α : Type} (k : String) (v : α) :
    mapGet [(k, v)] k = some v := by
  rw [mapGet_cons, if_pos rfl]

theorem mapGet_prune_of_none (l : List (String × Nat)) (now : Nat) (k : String)
    (h : mapGet l k = none) :
    mapGet (pruneRecentHashes l now) k = none := by
  rw [mapGet_eq_none_iff] at h ⊢
  intro e he
  exact h e (List.mem_filter.mp he).1

theorem pruneRecentHashes_append (l1 l2 : List (String × Nat)) (now : Nat) :
    pruneRecentHashes (l1 ++ l2) now =
      pruneRecentHashes l1 now ++ pruneRecentHashes l2 now := by
  simp [pruneRecentHashes, List.filter_append]

theorem pruneRecentHashes_single_keep (k : String) (t now : Nat)
    (h : ¬ t < now - 10 * 60 * 1000) :
    pruneRecentHashes [(k, t)] now = [(k, t)] := by
  simp [pruneRecentHashes, h]

theorem pruneRecentHashes_single_drop (k : String) (t now : Nat)
    (h : t < now - 10 * 60 * 1000) :
    pruneRecentHashes [(k, t)] now = [] := by
  simp [pruneRecentHashes, h]

/-- C7: for every reconnect attempt n ≥ 1 the pre-jitter backoff delay equals
min(30s, 1s·2^min(n,5)) — 2s, 4s, 8s, 16s for attempts 1..4, 30s for attempt 5
and capped at 30s for every attempt ≥ 5 — and the jitter added to the actual
sleep lies in the range 0 to 500 ms. -/
theorem C7_backoff_schedule :
    backoffOf 1 = 2000 ∧ backoffOf 2 = 4000 ∧ backoffOf 3 = 8000 ∧
    backoffOf 4 = 16000 ∧ backoffOf 5 = 30000 ∧
    (∀ n, 5 ≤ n → backoffOf n = 30000) ∧
    (∀ r : ℚ, 0 ≤ r → r < 1 → 0 ≤ jitterOf r ∧ jitterOf r < 500) := by
  refine ⟨by decide, by decide, by decide, by decide, by decide, ?_, ?_⟩
  · intro n hn
    rw [backoffOf, Nat.min_eq_right hn]
    decide
  · intro r h0 h1
    constructor
    · exact Int.le_floor.mpr (by push_cast; nlinarith)
    · exact Int.floor_lt.mpr (by push_cast; nlinarith)

/-- C7 witness: the cap holds at attempt 9 and the jitter bounds hold at the
concrete random draw 3/4. -/
theorem C7_backoff_witness :
    backoffOf 9 = 30000 ∧ 0 ≤ jitterOf (3 / 4) ∧ jitterOf (3 / 4) < 500 :=
  ⟨C7_backoff_schedule.2.2.2.2.2.1 9 (by norm_num),
   (C7_backoff_schedule.2.2.2.2.2.2 (3 / 4) (by norm_num) (by norm_num)).1,
   (C7_backoff_schedule.2.2.2.2.2.2 (3 / 4) (by norm_num) (by norm_num)).2⟩

/-- C5 counterexample: with two registered handlers where the first one throws
on the frame, the second handler is never invoked for that frame — the claim
that a throwing handler must not prevent the remaining handlers from being
invoked fails on the code (relay.mjs 231 has no per-handler catch). -/
theorem C5_counterexample :
    dispatchFrame [("first", true), ("second", false)] = ["first"] ∧
    "second" ∉ dispatchFrame [("first", true), ("second", false)] := by
  exact ⟨rfl, by decide⟩

/-- C5 (amended): handlers are invoked in registration order, but a handler
that throws stops dispatch for that frame: exactly the non-throwing prefix of
the registered handlers plus the first throwing handler are invoked. -/
theorem C5_dispatch_order (hs : List (String × Bool)) :
    dispatchFrame hs =
      (hs.takeWhile fun h => !h.2).map (·.1) ++
        ((hs.dropWhile fun h => !h.2).head?.map (·.1)).toList := by
  induction hs with
  | nil => rfl
  | cons e rest ih =>
      obtain ⟨name, throws⟩ := e
      cases throws
      · simpa [dispatchFrame, List.takeWhile_cons, List.dropWhile_cons] using ih
      · simp [dispatchFrame, List.takeWhile_cons, List.dropWhile_cons]

/-- C1: when a final chat event (truthy runId and sessionKey) arrives, the
emitted finished message's content equals the final event's flattened text when
that is provided and non-empty, and otherwise the last accumulated delta text
for that runId; the accumulator entry for the runId is removed regardless of
outcome; and a finished message is emitted exactly when the resulting text is
non-empty after trimming whitespace. -/
theorem C1_final_reconciliation (m : List (String × DeltaEntry))
    (p : ChatPayload) (now : Nat)
    (hr : p.runId ≠ "") (hs : p.sessionKey ≠ "") (hf : p.state = "final") :
    onChatEvent m p now =
      (let finalFlat := (p.message.map fun msg => flattenEvent msg.content).getD ""
       let accum := ((mapGet m p.runId).map (·.text)).getD ""
       let txt := if finalFlat = "" then accum else finalFlat
       (mapDelete m p.runId,
        if jsTrim txt = "" then none
        else some { sessionKey := p.sessionKey, role := "assistant",
                    content := txt,
                    timestamp := ((mapGet m p.runId).map (·.timestamp)).getD now })) := by
  have hd : p.state ≠ "delta" := by rw [hf]; decide
  rw [onChatEvent, if_neg (by simp [hr, hs]), if_neg hd, if_pos hf,
    onChatFinal.eq_def]
  cases p.message <;> simp [apply_ite_pair]

/-- C1 witness: a final event with an empty payload after deltas accumulated
Hello emits the assistant message Hello and clears the accumulator. -/
theorem C1_final_witness :
    onChatEvent c1Map c1Payload 7 =
      ([], some { sessionKey := "agent:main:main", role := "assistant",
                  content := "Hello", timestamp := 42 }) :=
  (C1_final_reconciliation c1Map c1Payload 7 (by decide) (by decide) rfl).trans
    (by decide)

theorem handleMessage_resolves (st : ConnState) (f : Frame)
    (hid : f.id ≠ "") (hp : (mapGet st.pending f.id).isSome)
    (hok : f.ok ≠ some false) :
    handleMessage st f =
      { st with
        timers := st.timers.filter fun t => !(t.1 == f.id),
        pending := mapDelete st.pending f.id,
        settled := st.settled ++ [(f.id, resolveOf f)] } := by
  rw [handleMessage, if_pos (And.intro hid hp)]
  show (if f.ok = some false then _ else _) = _
  rw [if_neg hok]

/-- C3: for two requests A then B pending on one connection, when B's response
frame arrives first it settles only B (B's caller receives B's resolve value)
and removes only B's entry; A remains pending with its entry intact, and A's
own later response settles A. The pending map and frame are arbitrary, so the
correlation is by id for every arrival order. -/
theorem C3_out_of_order_correlation (st : ConnState) (a b : String)
    (pa : PendingEntry) (fB fA : Frame)
    (hab : a ≠ b) (ha0 : a ≠ "") (hb : b ≠ "")
    (ha : mapGet st.pending a = some pa)
    (hbp : (mapGet st.pending b).isSome)
    (hidB : fB.id = b) (hokB : fB.ok ≠ some false)
    (hidA : fA.id = a) (hokA : fA.ok ≠ some false) :
    mapGet (handleMessage st fB).pending b = none ∧
    mapGet (handleMessage st fB).pending a = some pa ∧
    (handleMessage st fB).settled = st.settled ++ [(b, resolveOf fB)] ∧
    (handleMessage (handleMessage st fB) fA).settled =
      (st.settled ++ [(b, resolveOf fB)]) ++ [(a, resolveOf fA)] ∧
    mapGet (handleMessage (handleMessage st fB) fA).pending a = none := by
  have h1 := handleMessage_resolves st fB (by rw [hidB]; exact hb)
    (by rw [hidB]; exact hbp) hokB
  have hB1 : mapGet (handleMessage st fB).pending b = none := by
    rw [h1]
    show mapGet (mapDelete st.pending fB.id) b = none
    rw [hidB]
    exact mapGet_mapDelete_self st.pending b
  have hA1 : mapGet (handleMessage st fB).pending a = some pa := by
    rw [h1]
    show mapGet (mapDelete st.pending fB.id) a = some pa
    rw [hidB, mapGet_mapDelete_ne st.pending b a hab]
    exact ha
  have hS1 : (handleMessage st fB).settled = st.settled ++ [(b, resolveOf fB)] := by
    rw [h1]
    show st.settled ++ [(fB.id, resolveOf fB)] = _
    rw [hidB]
  have h2 := handleMessage_resolves (handleMessage st fB) fA
    (by rw [hidA]; exact ha0) (by rw [hidA, hA1]; rfl) hokA
  refine ⟨hB1, hA1, hS1, ?_, ?_⟩
  · rw [h2]
    show (handleMessage st fB).settled ++ [(fA.id, resolveOf fA)] = _
    rw [hS1, hidA]
  · rw [h2]
    show mapGet (mapDelete (handleMessage st fB).pending fA.id) a = none
    rw [hidA]
    exact mapGet_mapDelete_self _ a

/-- C3 witness: with A and B pending, B's response arriving first settles only
B, leaves A pending, and A's own response then settles A. -/
theorem C3_out_of_order_witness :
    mapGet (handleMessage c3State c3FrameB).pending "idB" = none ∧
    mapGet (handleMessage c3State c3FrameB).pending "idA" =
      some ⟨"chat.history"⟩ ∧
    (handleMessage c3State c3FrameB).settled =
      c3State.settled ++ [("idB", resolveOf c3FrameB)] ∧
    (handleMessage (handleMessage c3State c3FrameB) c3FrameA).settled =
      (c3State.settled ++ [("idB", resolveOf c3FrameB)]) ++
        [("idA", resolveOf c3FrameA)] ∧
    mapGet (handleMessage (handleMessage c3State c3FrameB) c3FrameA).pending
      "idA" = none :=
  C3_out_of_order_correlation c3State "idA" "idB" ⟨"chat.history"⟩ c3FrameB
    c3FrameA (by decide) (by decide) (by decide) (by decide) (by decide) rfl
    (by decide) rfl (by decide)

/-- C4: a pending request whose timeout fires is rejected with a timeout error
naming its method and its pending entry and timer are removed; a response
frame with the same id arriving afterwards resolves no pending entry and
settles nothing (it is fanned out as an event instead). -/
theorem C4_timeout_removes (st : ConnState) (id method : String) (f : Frame)
    (ht : (st.timers.find? fun t => t.1 == id) = some (id, method))
    (hf : f.id = id) :
    mapGet (fireTimeout st id).pending id = none ∧
    (fireTimeout st id).settled =
      st.settled ++ [(id, Settled.rejectedTimeout method)] ∧
    ((fireTimeout st id).timers.find? fun t => t.1 == id) = none ∧
    (handleMessage (fireTimeout st id) f).pending =
      (fireTimeout st id).pending ∧
    (handleMessage (fireTimeout st id) f).settled =
      (fireTimeout st id).settled := by
  have hfire : fireTimeout st id =
      { st with
        timers := st.timers.filter fun x => !(x.1 == id),
        pending := mapDelete st.pending id,
        settled := st.settled ++ [(id, Settled.rejectedTimeout method)] } := by
    rw [fireTimeout.eq_def, ht]
  have hnp : ¬(f.id ≠ "" ∧ (mapGet (fireTimeout st id).pending f.id).isSome) := by
    rw [hf, hfire]
    simp [mapGet_mapDelete_self]
  have hlate :
      (handleMessage (fireTimeout st id) f).pending =
          (fireTimeout st id).pending ∧
        (handleMessage (fireTimeout st id) f).settled =
          (fireTimeout st id).settled := by
    rw [handleMessage, if_neg hnp]
    by_cases hch : f.type = "connect.challenge" ∨ f.event = "connect.challenge"
    · rw [if_pos hch]
      exact ⟨rfl, rfl⟩
    · rw [if_neg hch]
      exact ⟨rfl, rfl⟩
  refine ⟨?_, ?_, ?_, hlate.1, hlate.2⟩
  · rw [hfire]
    exact mapGet_mapDelete_self st.pending id
  · rw [hfire]
  · rw [hfire]
    show (List.filter _ st.timers).find? _ = none
    rw [List.find?_eq_none]
    intro x hx
    have hpx := (List.mem_filter.mp hx).2
    simpa using hpx

/-- C4 witness: the timeout for request X rejects it, removes its entry and
timer, and X's late response is a no-op on the pending map and settlements. -/
theorem C4_timeout_witness :
    mapGet (fireTimeout c4State "X").pending "X" = none ∧
    (fireTimeout c4State "X").settled =
      c4State.settled ++ [("X", Settled.rejectedTimeout "chat.history")] ∧
    ((fireTimeout c4State "X").timers.find? fun t => t.1 == "X") = none ∧
    (handleMessage (fireTimeout c4State "X") c4Frame).pending =
      (fireTimeout c4State "X").pending ∧
    (handleMessage (fireTimeout c4State "X") c4Frame).settled =
      (fireTimeout c4State "X").settled :=
  C4_timeout_removes c4State "X" "chat.history" c4Frame (by decide) rfl

/-- C8: calling stop() with an open connection and pending requests rejects
every pending request with the connection-closing error, clears their timers,
empties the pending map, and clears the running flag so the reconnect loop
exits without scheduling another attempt; a second close() call is a no-op. -/
theorem C8_stop_rejects_and_exits (r : RelayState) (c : ConnState)
    (hc : r.conn = some c) (hopen : c.closed = false) :
    (stop r).running = false ∧
    (stop r).conn = some (close c) ∧
    (close c).pending = [] ∧
    (close c).settled =
      c.settled ++ c.pending.map (fun e => (e.1, Settled.rejectedClosing)) ∧
    (close c).timers =
      c.timers.filter (fun t => (mapGet c.pending t.1).isNone) ∧
    close (close c) = close c ∧
    loopNext (stop r).running (stop r).reconnectAttempt = LoopNext.exit := by
  have hcl : close c =
      { c with
        closed := true,
        connected := false,
        settled := c.settled ++
          c.pending.map fun e => (e.1, Settled.rejectedClosing),
        timers := c.timers.filter fun t => (mapGet c.pending t.1).isNone,
        pending := [] } := by
    rw [close, if_neg (by rw [hopen]; exact Bool.false_ne_true)]
  refine ⟨rfl, ?_, ?_, ?_, ?_, ?_, rfl⟩
  · show r.conn.map close = some (close c)
    rw [hc, Option.map_some']
  · rw [hcl]
  · rw [hcl]
  · rw [hcl]
  · rw [hcl, close]
    rw [if_pos rfl]

/-- C8 witness: stopping the relay with three pending requests rejects all
three with the closing error and the loop decision is to exit. -/
theorem C8_stop_witness :
    (stop c8Relay).running = false ∧
    (stop c8Relay).conn = some (close c8Conn) ∧
    (close c8Conn).pending = [] ∧
    (close c8Conn).settled =
      c8Conn.settled ++
        c8Conn.pending.map (fun e => (e.1, Settled.rejectedClosing)) ∧
    (close c8Conn).timers =
      c8Conn.timers.filter (fun t => (mapGet c8Conn.pending t.1).isNone) ∧
    close (close c8Conn) = close c8Conn ∧
    loopNext (stop c8Relay).running (stop c8Relay).reconnectAttempt =
      LoopNext.exit :=
  C8_stop_rejects_and_exits c8Relay c8Conn rfl rfl

/-- C2: a message pushed while its hash is unrecorded is delivered and its
hash recorded; a repeat push of the identical message within the 10-minute
window is suppressed; a repeat push more than 10 minutes later (after the
prune pass that every batch runs first) is delivered again. -/
theorem C2_dedup_window (hm0 : List (String × Nat)) (m : GatewayMsg)
    (t1 t2 t3 : Nat)
    (h0 : mapGet hm0 (hashGatewayMessage m) = none)
    (hwithin : t2 ≤ t1 + 10 * 60 * 1000)
    (hafter : t1 + 10 * 60 * 1000 < t3) :
    (pushGatewayMessages (fun _ => true) t1 hm0 [m]).2 = [m] ∧
    (pushGatewayMessages (fun _ => true) t2
        (pushGatewayMessages (fun _ => true) t1 hm0 [m]).1 [m]).2 = [] ∧
    (pushGatewayMessages (fun _ => true) t3
        (pushGatewayMessages (fun _ => true) t1 hm0 [m]).1 [m]).2 = [m] := by
  have hP1 : mapGet (pruneRecentHashes hm0 t1) (hashGatewayMessage m) = none :=
    mapGet_prune_of_none hm0 t1 _ h0
  have hstep1 : pushGatewayMessages (fun _ => true) t1 hm0 [m] =
      (pruneRecentHashes hm0 t1 ++ [(hashGatewayMessage m, t1)], [m]) := by
    rw [pushGatewayMessages, if_neg (by simp)]
    simp [pushOne, hP1, mapSet_of_get_none _ _ t1 hP1]
  refine ⟨by rw [hstep1], ?_, ?_⟩
  · rw [hstep1]
    have hkeep : pruneRecentHashes
        (pruneRecentHashes hm0 t1 ++ [(hashGatewayMessage m, t1)]) t2 =
        pruneRecentHashes (pruneRecentHashes hm0 t1) t2 ++
          [(hashGatewayMessage m, t1)] := by
      rw [pruneRecentHashes_append,
        pruneRecentHashes_single_keep _ _ _ (by omega)]
    have hfound : mapGet (pruneRecentHashes
        (pruneRecentHashes hm0 t1 ++ [(hashGatewayMessage m, t1)]) t2)
        (hashGatewayMessage m) = some t1 := by
      rw [hkeep, mapGet_append_of_none _ _ _
        (mapGet_prune_of_none _ t2 _ hP1), mapGet_single_self]
    rw [pushGatewayMessages, if_neg (by simp)]
    simp [pushOne, hfound]
  · rw [hstep1]
    have hdrop : pruneRecentHashes
        (pruneRecentHashes hm0 t1 ++ [(hashGatewayMessage m, t1)]) t3 =
        pruneRecentHashes (pruneRecentHashes hm0 t1) t3 := by
      rw [pruneRecentHashes_append,
        pruneRecentHashes_single_drop _ _ _ (by omega), List.append_nil]
    have hgone : mapGet (pruneRecentHashes
        (pruneRecentHashes hm0 t1 ++ [(hashGatewayMessage m, t1)]) t3)
        (hashGatewayMessage m) = none := by
      rw [hdrop]
      exact mapGet_prune_of_none _ t3 _ hP1
    rw [pushGatewayMessages, if_neg (by simp)]
    simp [pushOne, hgone]

/-- C2 witness: pushing the same message at times 0, 300000 (within 10 min)
and 600001 (past 10 min) delivers it, suppresses it, and delivers it again. -/
theorem C2_dedup_witness :
    (pushGatewayMessages (fun _ => true) 0 [] [c2Msg]).2 = [c2Msg] ∧
    (pushGatewayMessages (fun _ => true) 300000
        (pushGatewayMessages (fun _ => true) 0 [] [c2Msg]).1 [c2Msg]).2 = [] ∧
    (pushGatewayMessages (fun _ => true) 600001
        (pushGatewayMessages (fun _ => true) 0 [] [c2Msg]).1 [c2Msg]).2 =
      [c2Msg] :=
  C2_dedup_window [] c2Msg 0 300000 600001 rfl (by norm_num) (by norm_num)

/-- C10: when the RemoteStore push of a fresh message fails, its dedup hash is
not recorded — the batch leaves the hash map exactly as the prune pass left
it — and a retry of the same message once pushes succeed is delivered, not
suppressed. -/
theorem C10_record_after_success (hm : List (String × Nat)) (m : GatewayMsg)
    (now later : Nat)
    (h0 : mapGet hm (hashGatewayMessage m) = none) :
    (pushGatewayMessages (fun _ => false) now hm [m]).1 =
      pruneRecentHashes hm now ∧
    mapGet (pushGatewayMessages (fun _ => false) now hm [m]).1
      (hashGatewayMessage m) = none ∧
    (pushGatewayMessages (fun _ => true) later
        (pushGatewayMessages (fun _ => false) now hm [m]).1 [m]).2 = [m] := by
  have hPn : mapGet (pruneRecentHashes hm now) (hashGatewayMessage m) = none :=
    mapGet_prune_of_none hm now _ h0
  have hfail : pushGatewayMessages (fun _ => false) now hm [m] =
      (pruneRecentHashes hm now, []) := by
    rw [pushGatewayMessages, if_neg (by simp)]
    simp [pushOne, hPn]
  refine ⟨by rw [hfail], by rw [hfail]; exact hPn, ?_⟩
  rw [hfail]
  have hPn2 : mapGet (pruneRecentHashes (pruneRecentHashes hm now) later)
      (hashGatewayMessage m) = none :=
    mapGet_prune_of_none _ later _ hPn
  rw [pushGatewayMessages, if_neg (by simp)]
  simp [pushOne, hPn2]

/-- C10 witness: a failed push of a fresh message records nothing and the
retry with a succeeding push delivers the message. -/
theorem C10_record_witness :
    (pushGatewayMessages (fun _ => false) 5 [("other", 4)] [c2Msg]).1 =
      pruneRecentHashes [("other", 4)] 5 ∧
    mapGet (pushGatewayMessages (fun _ => false) 5 [("other", 4)] [c2Msg]).1
      (hashGatewayMessage c2Msg) = none ∧
    (pushGatewayMessages (fun _ => true) 9
        (pushGatewayMessages (fun _ => false) 5 [("other", 4)] [c2Msg]).1
        [c2Msg]).2 = [c2Msg] :=
  C10_record_after_success [("other", 4)] c2Msg 5 9 (by decide)

theorem jsSlice_length_le (s : String) (n : Nat) : (jsSlice s n).length ≤ n := by
  show (s.data.take n).length ≤ n
  rw [List.length_take]
  exact min_le_left _ _

theorem pushChatEvent_some_shape (sk : String) (cm : ChatEventMsg) (now : Nat)
    (out : PushedMessage) (h : pushChatEvent sk (some cm) now = some out) :
    out = { sessionKey := sk, role := coerceRoleSystemDefault cm.role,
            content := jsSlice (flattenStrict cm.content) 4000,
            timestamp := cm.timestamp.getD now } := by
  simp only [pushChatEvent] at h
  by_cases hsk : sk = ""
  · rw [if_pos hsk] at h
    cases h
  · rw [if_neg hsk] at h
    by_cases htr : jsTrim (flattenStrict cm.content) = ""
    · rw [if_pos htr] at h
      cases h
    · rw [if_neg htr] at h
      exact (Option.some_inj.mp h).symm

theorem normalizeHistoryMessage_some_shape (cm : ChatEventMsg) (now : Nat)
    (out : HistoryMessage) (h : normalizeHistoryMessage cm now = some out) :
    out = { role := coerceRoleSystemDefault cm.role,
            content := jsSlice (flattenStrict cm.content) 4000,
            timestamp := cm.timestamp.getD now } := by
  simp only [normalizeHistoryMessage] at h
  by_cases hrole : cm.role = "toolResult" ∨ cm.role = "tool"
  · rw [if_pos hrole] at h
    cases h
  · rw [if_neg hrole] at h
    by_cases htr : jsTrim (flattenStrict cm.content) = ""
    · rw [if_pos htr] at h
      cases h
    · rw [if_neg htr] at h
      exact (Option.some_inj.mp h).symm

theorem extractGatewayMessage_role (m : RawGatewayMessage) (now : Nat)
    (out : GatewayMsg) (h : extractGatewayMessage m now = some out) :
    out.role = coerceRoleAssistantDefault m.role := by
  obtain ⟨msk, mc, mrole, mts⟩ := m
  cases mc with
  | none => simp [extractGatewayMessage] at h
  | some c =>
      simp only [extractGatewayMessage] at h
      by_cases hsk : msk = ""
      · rw [if_pos hsk] at h
        cases h
      · rw [if_neg hsk] at h
        by_cases hce : c = ""
        · rw [if_pos hce] at h
          cases h
        · rw [if_neg hce] at h
          rw [← Option.some_inj.mp h]

theorem coerceRoleAssistantDefault_mem (r : String) :
    coerceRoleAssistantDefault r = "user" ∨
    coerceRoleAssistantDefault r = "assistant" ∨
    coerceRoleAssistantDefault r = "system" := by
  rw [coerceRoleAssistantDefault]
  split
  · rename_i h
    rcases h with h | h | h <;> simp [h]
  · exact Or.inr (Or.inl rfl)

theorem coerceRoleSystemDefault_mem (r : String) :
    coerceRoleSystemDefault r = "user" ∨
    coerceRoleSystemDefault r = "assistant" ∨
    coerceRoleSystemDefault r = "system" := by
  rw [coerceRoleSystemDefault]
  split
  · exact Or.inl rfl
  · split
    · exact Or.inr (Or.inl rfl)
    · exact Or.inr (Or.inr rfl)

theorem coerceRoleAssistantDefault_default (r : String)
    (h1 : r ≠ "assistant") (h2 : r ≠ "system") (h3 : r ≠ "user") :
    coerceRoleAssistantDefault r = "assistant" := by
  rw [coerceRoleAssistantDefault, if_neg]
  tauto

theorem coerceRoleSystemDefault_default (r : String)
    (h1 : r ≠ "user") (h2 : r ≠ "assistant") :
    coerceRoleSystemDefault r = "system" := by
  rw [coerceRoleSystemDefault, if_neg h1, if_neg h2]

theorem pushOne_snd (ok : GatewayMsg → Bool) (now : Nat)
    (acc : List (String × Nat) × List GatewayMsg) (m : GatewayMsg) :
    (pushOne ok now acc m).2 = acc.2 ∨
    (pushOne ok now acc m).2 = acc.2 ++ [m] := by
  simp only [pushOne]
  split
  · exact Or.inl rfl
  · split
    · exact Or.inr rfl
    · exact Or.inl rfl

theorem pushOne_foldl_mem (ok : GatewayMsg → Bool) (now : Nat)
    (msgs : List GatewayMsg) (acc : List (String × Nat) × List GatewayMsg)
    (d : GatewayMsg) (hd : d ∈ (msgs.foldl (pushOne ok now) acc).2) :
    d ∈ acc.2 ∨ d ∈ msgs := by
  induction msgs generalizing acc with
  | nil => exact Or.inl (by simpa using hd)
  | cons mm ms ih =>
      rw [List.foldl_cons] at hd
      rcases ih (pushOne ok now acc mm) hd with h | h
      · rcases pushOne_snd ok now acc mm with he | he
        · rw [he] at h
          exact Or.inl h
        · rw [he] at h
          rcases List.mem_append.mp h with h3 | h3
          · exact Or.inl h3
          · have hdm : d = mm := by simpa using h3
            exact Or.inr (by simp [hdm])
      · exact Or.inr (List.mem_cons_of_mem _ h)

/-- C6 counterexample: a gateway message whose content has 4001 units passes
through extractGatewayMessages unchanged and is delivered by
pushGatewayMessages with content length 4001 > 4000 — the push path of
relay.mjs 847-864 applies no length cap, so the claim fails on it. -/
theorem C6_counterexample :
    extractGatewayMessage
      { sessionKey := "agent:main:main", content := some longContent,
        role := "assistant", timestamp := some 5 } 0 = some longMsg ∧
    (pushGatewayMessages (fun _ => true) 0 [] [longMsg]).2 = [longMsg] ∧
    4000 < longMsg.content.length := by
  refine ⟨rfl, rfl, ?_⟩
  show 4000 < (List.replicate 4001 'a').length
  rw [List.length_replicate]
  norm_num

/-- C6 (amended): messages delivered through pushChatEvent and through the
history sync have content of length at most 4000 units; the gateway-message
push path (pushGatewayMessages) delivers each message of its batch unchanged,
with no length cap applied. -/
theorem C6_content_caps :
    (∀ (sk : String) (omsg : Option ChatEventMsg) (now : Nat)
        (out : PushedMessage),
        pushChatEvent sk omsg now = some out → out.content.length ≤ 4000) ∧
    (∀ (cm : ChatEventMsg) (now : Nat) (out : HistoryMessage),
        normalizeHistoryMessage cm now = some out →
        out.content.length ≤ 4000) ∧
    (∀ (ok : GatewayMsg → Bool) (now : Nat) (hm : List (String × Nat))
        (msgs : List GatewayMsg) (d : GatewayMsg),
        d ∈ (pushGatewayMessages ok now hm msgs).2 → d ∈ msgs) := by
  refine ⟨?_, ?_, ?_⟩
  · intro sk omsg now out h
    cases omsg with
    | none => simp [pushChatEvent] at h
    | some cm =>
        rw [pushChatEvent_some_shape sk cm now out h]
        exact jsSlice_length_le _ _
  · intro cm now out h
    rw [normalizeHistoryMessage_some_shape cm now out h]
    exact jsSlice_length_le _ _
  · intro ok now hm msgs d hd
    rw [pushGatewayMessages] at hd
    by_cases hmt : msgs = []
    · rw [if_pos hmt] at hd
      simp at hd
    · rw [if_neg hmt] at hd
      rcases pushOne_foldl_mem ok now msgs _ d hd with h | h
      · simp at h
      · exact h

/-- C6 amended witness: the capped paths yield content within the cap on a
concrete message, and a concrete delivered gateway message comes from the
batch. -/
theorem C6_caps_witness :
    ({ sessionKey := "agent:main:main", role := "assistant",
        content := jsSlice "hello" 4000, timestamp := 3 } :
      PushedMessage).content.length ≤ 4000 ∧
    ({ role := "assistant", content := jsSlice "hello" 4000, timestamp := 3 } :
      HistoryMessage).content.length ≤ 4000 ∧
    c2Msg ∈ [c2Msg] :=
  ⟨C6_content_caps.1 "agent:main:main"
      (some ⟨"assistant", Content.str "hello", some 3⟩) 0 _ (by decide),
   C6_content_caps.2.1 ⟨"assistant", Content.str "hello", some 3⟩ 0 _
      (by decide),
   C6_content_caps.2.2 (fun _ => true) 0 [] [c2Msg] c2Msg (by decide)⟩

/-- C9 counterexample: pushChatEvent normalizing a chat message whose role is
the tool-oriented "tool" coerces it to "system", not to the "assistant"
default the claim states (relay.mjs 694). -/
theorem C9_counterexample :
    pushChatEvent "agent:main:main"
        (some { role := "tool", content := Content.str "tool output",
                timestamp := some 7 }) 0 =
      some { sessionKey := "agent:main:main", role := "system",
             content := "tool output", timestamp := 7 } ∧
    ("system" : String) ≠ "assistant" := by
  exact ⟨by decide, by decide⟩

/-- C9 (amended): every normalization path coerces the role into
{user, assistant, system}, but only extractGatewayMessages uses "assistant"
as the default for unrecognized roles; pushChatEvent and the history sync
default every role other than user/assistant — tool-oriented ones included —
to "system" (and the history sync drops tool/toolResult messages outright
before this coercion). Each path is quantified over its own message, so the
pushChatEvent part covers tool-oriented roles the history sync would drop. -/
theorem C9_role_coercion (sk : String) (cm1 cm3 : ChatEventMsg)
    (m : RawGatewayMessage) (now : Nat) (out1 : PushedMessage)
    (out2 : GatewayMsg) (out3 : HistoryMessage)
    (h1 : pushChatEvent sk (some cm1) now = some out1)
    (h2 : extractGatewayMessage m now = some out2)
    (h3 : normalizeHistoryMessage cm3 now = some out3) :
    (out1.role = "user" ∨ out1.role = "assistant" ∨ out1.role = "system") ∧
    (out2.role = "user" ∨ out2.role = "assistant" ∨ out2.role = "system") ∧
    (out3.role = "user" ∨ out3.role = "assistant" ∨ out3.role = "system") ∧
    (m.role ≠ "assistant" → m.role ≠ "system" → m.role ≠ "user" →
      out2.role = "assistant") ∧
    (cm1.role ≠ "user" → cm1.role ≠ "assistant" → out1.role = "system") ∧
    (cm3.role ≠ "user" → cm3.role ≠ "assistant" → out3.role = "system") := by
  have hs1 := pushChatEvent_some_shape sk cm1 now out1 h1
  have hs2 := extractGatewayMessage_role m now out2 h2
  have hs3 := normalizeHistoryMessage_some_shape cm3 now out3 h3
  have hr1 : out1.role = coerceRoleSystemDefault cm1.role := by rw [hs1]
  have hr3 : out3.role = coerceRoleSystemDefault cm3.role := by rw [hs3]
  refine ⟨?_, ?_, ?_, ?_, ?_, ?_⟩
  · rw [hr1]
    exact coerceRoleSystemDefault_mem cm1.role
  · rw [hs2]
    exact coerceRoleAssistantDefault_mem m.role
  · rw [hr3]
    exact coerceRoleSystemDefault_mem cm3.role
  · intro ha hb hc
    rw [hs2]
    exact coerceRoleAssistantDefault_default m.role ha hb hc
  · intro ha hb
    rw [hr1]
    exact coerceRoleSystemDefault_default cm1.role ha hb
  · intro ha hb
    rw [hr3]
    exact coerceRoleSystemDefault_default cm3.role ha hb

/-- C9 amended witness: the tool-oriented role "toolResult" becomes "system"
on the pushChatEvent path, the tool-oriented role "tool" becomes "assistant"
on the extractGatewayMessages path, and the unrecognized role "widget"
becomes "system" on the history-sync path. -/
theorem C9_role_witness :
    ({ sessionKey := "agent:main:main",
        role := coerceRoleSystemDefault "toolResult",
        content := jsSlice "tool result text" 4000, timestamp := 2 } :
      PushedMessage).role = "system" ∧
    ({ sessionKey := "s1", role := coerceRoleAssistantDefault "tool",
        content := "yo", timestamp := 3 } : GatewayMsg).role = "assistant" ∧
    ({ role := coerceRoleSystemDefault "widget",
        content := jsSlice "hi" 4000, timestamp := 2 } :
      HistoryMessage).role = "system" := by
  have h := C9_role_coercion "agent:main:main" c9ChatTool c9Chat c9Raw 0
      { sessionKey := "agent:main:main",
        role := coerceRoleSystemDefault "toolResult",
        content := jsSlice "tool result text" 4000, timestamp := 2 }
      { sessionKey := "s1", role := coerceRoleAssistantDefault "tool",
        content := "yo", timestamp := 3 }
      { role := coerceRoleSystemDefault "widget",
        content := jsSlice "hi" 4000, timestamp := 2 } rfl rfl rfl
  exact ⟨h.2.2.2.2.1 (by decide) (by decide),
    h.2.2.2.1 (by decide) (by decide) (by decide),
    h.2.2.2.2.2 (by decide) (by decide)⟩

end FastclawRelay
